import Mathlib

/-
Verification development for the HeyGen LiveAvatar proxy backend (main.py).

The program is a FastAPI proxy with five operations that make at most one
outbound HTTP call each.  We shallowly embed the request handlers as pure
functions from the outcome of the outbound call (and, for Chat, the inbound
request body) to the HTTP response the proxy produces.

Modelling conventions:
- JSON values are the inductive type Json below (Python json values).
- An upstream HTTP response is a status code, its raw body text, and the
  result of parsing that text as JSON (some j when parsing succeeds,
  none when res.json() would raise JSONDecodeError).  The parse result is
  carried as a field rather than recomputed, standing for httpx res.json().
- httpx exceptions during the outbound call are the timeout and
  transportError constructors of OutboundOutcome.
- Exception message strings (str(e), traceback.format_exc(), JSON decode
  errors) are modelled as explicit string-building functions; claims only
  depend on their presence and the fields that carry them.
- A Python handler that lets an exception escape (FastAPI then produces an
  internal failure outside the handler code) is modelled as the unhandled
  constructor of ProxyResult.
-/

set_option autoImplicit false

namespace HeygenProxy

/-- JSON values as produced by Python json parsing. -/
inductive Json where
  | null : Json
  | bool (b : Bool) : Json
  | num (n : Int) : Json
  | str (s : String) : Json
  | arr (elems : List Json) : Json
  | obj (fields : List (String × Json)) : Json

/-- Python truthiness of a JSON value: None, False, 0, empty string, empty
list and empty dict are falsy, everything else is truthy. -/
def Json.truthy : Json → Bool
  | .null => false
  | .bool b => b
  | .num n => decide (n ≠ 0)
  | .str s => decide (s ≠ "")
  | .arr elems => !elems.isEmpty
  | .obj fields => !fields.isEmpty

/-- dict.get on a JSON object parsed by Python: with duplicate keys the last
occurrence wins, as in json.loads. -/
def dictGet (fields : List (String × Json)) (k : String) : Option Json :=
  match fields with
  | [] => none
  | (k2, v) :: rest =>
    match dictGet rest k with
    | some w => some w
    | none => if k2 = k then some v else none

/-- Whether a JSON value is an object with an error field. -/
def hasErrorField (j : Json) : Bool :=
  match j with
  | .obj fields => fields.any (fun p => p.1 == "error")
  | _ => false

/-- An upstream HTTP response: status code, raw body text, and the JSON
parse of the text (none when res.json() raises). -/
structure UpstreamResponse where
  status : Nat
  text : String
  jsonBody : Option Json

/-- Outcome of the single outbound call an operation makes:
the call completed with a response, raised httpx.TimeoutException, or raised
some other transport-level exception (str(e) carried as the message). -/
inductive OutboundOutcome where
  | ok (resp : UpstreamResponse) : OutboundOutcome
  | timeout (msg : String) : OutboundOutcome
  | transportError (msg : String) : OutboundOutcome

/-- The HTTP response the proxy sends to its caller. -/
structure HttpResponse where
  status : Nat
  body : Json

/-- Result of running a handler: either an HTTP response, or an exception
escaping the handler as an unhandled fault. -/
inductive ProxyResult where
  | response (r : HttpResponse) : ProxyResult
  | unhandled (msg : String) : ProxyResult

/-- httpx success statuses: res.is_success, the range checked by
res.raise_for_status(). -/
def is_success (status : Nat) : Bool := decide (200 ≤ status) && decide (status < 300)

/-- Model of traceback.format_exc() for an exception with message msg. -/
def format_exc (msg : String) : String :=
  "Traceback (most recent call last): " ++ msg

/-- Model of str(e) for the JSONDecodeError raised by res.json() on a body
that is not valid JSON. -/
def jsonDecodeMsg (text : String) : String :=
  "JSONDecodeError: Expecting value: " ++ text

/-- Result of the heygen_get helper: it returns res.json() on a 2xx
response with parseable body, and otherwise lets an httpx exception
(timeout, HTTPStatusError from raise_for_status, or any other) propagate to
the calling handler. -/
inductive HelperOutcome where
  | value (j : Json) : HelperOutcome
  | timeoutExc (msg : String) : HelperOutcome
  | httpStatusExc (resp : UpstreamResponse) : HelperOutcome
  | otherExc (msg : String) : HelperOutcome

/-- heygen_get: GET to the HeyGen API with a 60 second timeout, then
res.raise_for_status() and res.json(). -/
def heygen_get (outcome : OutboundOutcome) : HelperOutcome :=
  match outcome with
  | .timeout m => .timeoutExc m
  | .transportError m => .otherExc m
  | .ok resp =>
    if is_success resp.status then
      match resp.jsonBody with
      | some j => .value j
      | none => .otherExc (jsonDecodeMsg resp.text)
    else .httpStatusExc resp

/-- Body of the 504 timeout response used by the four avatar-provider
handlers. -/
def timeoutBody (m : String) : Json :=
  .obj [("error", .str ("Request timeout: " ++ m))]

/-- GET /avatars handler: passes heygen_get v2/avatars through, mapping
timeout to 504, HTTPStatusError to the upstream status with the raw text
wrapped as an error field, and any other exception to 500 with error and
traceback fields. -/
def get_avatars (outcome : OutboundOutcome) : ProxyResult :=
  match heygen_get outcome with
  | .value j => .response ⟨200, j⟩
  | .timeoutExc m => .response ⟨504, timeoutBody m⟩
  | .httpStatusExc resp => .response ⟨resp.status, .obj [("error", .str resp.text)]⟩
  | .otherExc m => .response ⟨500, .obj [("error", .str m), ("traceback", .str (format_exc m))]⟩

/-- GET /interactive_avatars handler: like get_avatars but its generic
exception branch returns only the error field, with no traceback. -/
def get_interactive_avatars (outcome : OutboundOutcome) : ProxyResult :=
  match heygen_get outcome with
  | .value j => .response ⟨200, j⟩
  | .timeoutExc m => .response ⟨504, timeoutBody m⟩
  | .httpStatusExc resp => .response ⟨resp.status, .obj [("error", .str resp.text)]⟩
  | .otherExc m => .response ⟨500, .obj [("error", .str m)]⟩

/-- GET /voices handler: same shape as get_interactive_avatars. -/
def get_voices (outcome : OutboundOutcome) : ProxyResult :=
  match heygen_get outcome with
  | .value j => .response ⟨200, j⟩
  | .timeoutExc m => .response ⟨504, timeoutBody m⟩
  | .httpStatusExc resp => .response ⟨resp.status, .obj [("error", .str resp.text)]⟩
  | .otherExc m => .response ⟨500, .obj [("error", .str m)]⟩

/-- Model of str(e) for the AttributeError raised by list(result.keys())
when the parsed 200 body is not a dict. -/
def keysAttributeErrorMsg : String :=
  "AttributeError: object has no attribute keys"

/-- POST /streaming_token handler.  It POSTs directly (no raise_for_status),
then checks res.status_code != 200 by hand: any non-200 status, 2xx
included, yields that status with an error/status/details wrapper built
from the raw text.  On a 200, result = res.json() is followed by a debug
print of list(result.keys()) before the return: a parse failure, or a
parsed body that is not a dict (keys() raises AttributeError), falls to
the generic except branch, which answers 500 with error and traceback
fields; only a 200 whose body parses to a dict is passed through.
The httpx.HTTPStatusError except clause in the source is unreachable since
raise_for_status is never called on this path. -/
def get_streaming_token (outcome : OutboundOutcome) : ProxyResult :=
  match outcome with
  | .timeout m => .response ⟨504, timeoutBody m⟩
  | .transportError m =>
    .response ⟨500, .obj [("error", .str m), ("traceback", .str (format_exc m))]⟩
  | .ok resp =>
    if resp.status ≠ 200 then
      .response ⟨resp.status,
        .obj [("error", .str resp.text), ("status", .num (resp.status : Int)),
              ("details", .str "Check backend logs")]⟩
    else
      match resp.jsonBody with
      | some (.obj fields) => .response ⟨200, .obj fields⟩
      | some _ =>
        .response ⟨500, .obj [("error", .str keysAttributeErrorMsg),
                              ("traceback", .str (format_exc keysAttributeErrorMsg))]⟩
      | none =>
        .response ⟨500, .obj [("error", .str (jsonDecodeMsg resp.text)),
                              ("traceback", .str (format_exc (jsonDecodeMsg resp.text)))]⟩

/-- The inbound body of a Chat request: either it parses as JSON, or
request.json() raises (msg models str(e) of that failure). -/
inductive InboundBody where
  | json (data : Json) : InboundBody
  | invalid (msg : String) : InboundBody

/-- Observable behaviour of one Chat invocation: the payload of the
outbound call when one is made (none means zero outbound calls), and the
result returned to the caller. -/
structure ChatBehavior where
  outboundCall : Option Json
  result : ProxyResult

/-- The 400 validation response of Chat, with no outbound call. -/
def messageRequired : ChatBehavior :=
  ⟨none, .response ⟨400, .obj [("error", .str "Message is required")]⟩⟩

/-- The payload Chat sends upstream: a dict with the message, extended with
conversation_id exactly when data.get("conversation_id") is truthy. -/
def chatPayload (fields : List (String × Json)) (m : Json) : Json :=
  .obj (("message", m) ::
    (match dictGet fields "conversation_id" with
     | some cid => if cid.truthy then [("conversation_id", cid)] else []
     | none => []))

/-- How Chat maps the outcome of its outbound call (120 second timeout) to
a result.  On a 2xx it returns res.json(); a parse failure there falls to
the generic except branch (500, short error form).  raise_for_status turns
a non-2xx into httpx.HTTPStatusError, whose handler evaluates
e.response.json() when the text is non-empty — a parse failure inside that
except clause escapes the handler entirely — and answers an empty-text
error with an error field holding the empty text. -/
def chatUpstream (outcome : OutboundOutcome) : ProxyResult :=
  match outcome with
  | .timeout m =>
    .response ⟨504, .obj [("error",
      .str ("Request timeout: " ++ m ++ ". RAG API is taking too long to respond."))]⟩
  | .transportError m => .response ⟨500, .obj [("error", .str m)]⟩
  | .ok resp =>
    if is_success resp.status then
      match resp.jsonBody with
      | some j => .response ⟨200, j⟩
      | none => .response ⟨500, .obj [("error", .str (jsonDecodeMsg resp.text))]⟩
    else
      if resp.text ≠ "" then
        match resp.jsonBody with
        | some j => .response ⟨resp.status, j⟩
        | none => .unhandled (jsonDecodeMsg resp.text)
      else .response ⟨resp.status, .obj [("error", .str resp.text)]⟩

/-- POST /chat handler.  request.json() failures fall to the generic except
branch (500, short error form) before any outbound call.  data.get on a
non-dict raises AttributeError, likewise answered 500 with no call.  A
missing or falsy message answers 400 with no call.  Otherwise the payload
is built and the outbound call made. -/
def chat (inbound : InboundBody) (outcome : OutboundOutcome) : ChatBehavior :=
  match inbound with
  | .invalid m => ⟨none, .response ⟨500, .obj [("error", .str m)]⟩⟩
  | .json data =>
    match data with
    | .obj fields =>
      match dictGet fields "message" with
      | some m =>
        if m.truthy then ⟨some (chatPayload fields m), chatUpstream outcome⟩
        else messageRequired
      | none => messageRequired
    | _ =>
      ⟨none, .response ⟨500,
        .obj [("error", .str "AttributeError: list object has no attribute get")]⟩⟩

/-- The five operations of the proxy. -/
inductive Operation where
  | issueStreamingToken : Operation
  | listAllAvatars : Operation
  | listInteractiveAvatars : Operation
  | listVoices : Operation
  | chatOp : Operation
deriving DecidableEq

/-- The outbound timeout each operation configures on its httpx client, in
seconds: 60.0 for every avatar-provider call, 120.0 for the chat call. -/
def opTimeoutSeconds : Operation → Nat
  | .issueStreamingToken => 60
  | .listAllAvatars => 60
  | .listInteractiveAvatars => 60
  | .listVoices => 60
  | .chatOp => 120

/-! Theorems -/

/-- Claim C3: a Chat request whose message field is absent or the empty
string gets status 400 with body error: Message is required, and no
outbound call is made. -/
theorem chat_missing_message_rejected
    (fields : List (String × Json)) (outcome : OutboundOutcome)
    (h : dictGet fields "message" = none ∨ dictGet fields "message" = some (.str "")) :
    chat (.json (.obj fields)) outcome =
      ⟨none, .response ⟨400, .obj [("error", .str "Message is required")]⟩⟩ := by
  rcases h with h | h <;> simp [chat, h, Json.truthy, messageRequired]

/-- Witness for C3 at two concrete requests: an empty object body and an
explicit empty-string message. -/
theorem chat_missing_message_rejected_witness :
    chat (.json (.obj [])) (.timeout "t") =
      ⟨none, .response ⟨400, .obj [("error", .str "Message is required")]⟩⟩ ∧
    chat (.json (.obj [("message", .str "")])) (.timeout "t") =
      ⟨none, .response ⟨400, .obj [("error", .str "Message is required")]⟩⟩ :=
  ⟨chat_missing_message_rejected [] (.timeout "t") (Or.inl rfl),
   chat_missing_message_rejected [("message", .str "")] (.timeout "t") (Or.inr rfl)⟩

/-- Claim C9: a Chat request whose body does not parse as JSON gets the
generic 500 transport-failure shape (not a 400), and no outbound call is
made. -/
theorem chat_unparseable_body_500 (m : String) (outcome : OutboundOutcome) :
    chat (.invalid m) outcome =
      ⟨none, .response ⟨500, .obj [("error", .str m)]⟩⟩ := rfl

/-- Claim C10: Chat rejects every falsy JSON value bound to message — null,
false, 0 and the empty string are all falsy — with status 400 and no
outbound call. -/
theorem chat_falsy_message_rejected :
    (Json.null.truthy = false ∧ (Json.bool false).truthy = false ∧
     (Json.num 0).truthy = false ∧ (Json.str "").truthy = false) ∧
    ∀ (fields : List (String × Json)) (outcome : OutboundOutcome) (v : Json),
      dictGet fields "message" = some v → v.truthy = false →
      chat (.json (.obj fields)) outcome =
        ⟨none, .response ⟨400, .obj [("error", .str "Message is required")]⟩⟩ := by
  refine ⟨⟨rfl, rfl, rfl, rfl⟩, ?_⟩
  intro fields outcome v h hv
  simp [chat, h, hv, messageRequired]

/-- Witness for C10: message bound to null. -/
theorem chat_falsy_message_rejected_witness :
    chat (.json (.obj [("message", Json.null)])) (.timeout "t") =
      ⟨none, .response ⟨400, .obj [("error", .str "Message is required")]⟩⟩ :=
  chat_falsy_message_rejected.2 [("message", Json.null)] (.timeout "t") Json.null rfl rfl

/-- Claim C8: IssueStreamingToken treats every upstream status other than
exactly 200 — other 2xx statuses included — as an error, answering with
that status and the error/status/details wrapper around the raw upstream
text, never passing the upstream body through. -/
theorem streaming_token_non200_wrapper (resp : UpstreamResponse) (h : resp.status ≠ 200) :
    get_streaming_token (.ok resp) =
      .response ⟨resp.status,
        .obj [("error", .str resp.text), ("status", .num (resp.status : Int)),
              ("details", .str "Check backend logs")]⟩ := by
  simp [get_streaming_token, h]

/-- Witness for C8 at a 201 response, a success status that is not 200. -/
theorem streaming_token_non200_wrapper_witness :
    get_streaming_token (.ok ⟨201, "created", some Json.null⟩) =
      .response ⟨201, .obj [("error", .str "created"), ("status", .num 201),
                            ("details", .str "Check backend logs")]⟩ :=
  streaming_token_non200_wrapper ⟨201, "created", some Json.null⟩ (by decide)

/-- Claim C5: the outbound Chat payload is exactly the message, extended
with conversation_id precisely when the inbound conversation_id is present
and non-empty; an absent or empty conversation_id leaves no trace in the
payload. -/
theorem chat_outbound_payload (m cid : String) (outcome : OutboundOutcome) (hm : m ≠ "") :
    (chat (.json (.obj [("message", .str m), ("conversation_id", .str cid)])) outcome).outboundCall =
      some (if cid = "" then Json.obj [("message", .str m)]
            else Json.obj [("message", .str m), ("conversation_id", .str cid)]) ∧
    (chat (.json (.obj [("message", .str m)])) outcome).outboundCall =
      some (Json.obj [("message", .str m)]) := by
  constructor
  · by_cases hc : cid = "" <;>
      simp [chat, dictGet, chatPayload, Json.truthy, hm, hc]
  · simp [chat, dictGet, chatPayload, Json.truthy, hm]

/-- Witness for C5 at the two inputs named by the spec. -/
theorem chat_outbound_payload_witness :
    (chat (.json (.obj [("message", .str "hi"), ("conversation_id", .str "abc")]))
        (.timeout "t")).outboundCall =
      some (Json.obj [("message", .str "hi"), ("conversation_id", .str "abc")]) ∧
    (chat (.json (.obj [("message", .str "hi")])) (.timeout "t")).outboundCall =
      some (Json.obj [("message", .str "hi")]) := by
  have h := chat_outbound_payload "hi" "abc" (.timeout "t") (by decide)
  exact ⟨by simpa using h.1, h.2⟩

/-- Claim C4: every operation configures the fixed outbound timeout the
spec states (60 seconds for the four avatar-provider operations, 120 for
Chat), and when the outbound call times out the caller gets status 504
with a JSON body whose error field describes the timeout. -/
theorem timeout_yields_504 :
    (opTimeoutSeconds .issueStreamingToken = 60 ∧ opTimeoutSeconds .listAllAvatars = 60 ∧
     opTimeoutSeconds .listInteractiveAvatars = 60 ∧ opTimeoutSeconds .listVoices = 60 ∧
     opTimeoutSeconds .chatOp = 120) ∧
    (∀ m : String,
      get_streaming_token (.timeout m) =
        .response ⟨504, .obj [("error", .str ("Request timeout: " ++ m))]⟩ ∧
      get_avatars (.timeout m) =
        .response ⟨504, .obj [("error", .str ("Request timeout: " ++ m))]⟩ ∧
      get_interactive_avatars (.timeout m) =
        .response ⟨504, .obj [("error", .str ("Request timeout: " ++ m))]⟩ ∧
      get_voices (.timeout m) =
        .response ⟨504, .obj [("error", .str ("Request timeout: " ++ m))]⟩) ∧
    (∀ (m : String) (fields : List (String × Json)) (v : Json),
      dictGet fields "message" = some v → v.truthy = true →
      (chat (.json (.obj fields)) (.timeout m)).result =
        .response ⟨504, .obj [("error",
          .str ("Request timeout: " ++ m ++ ". RAG API is taking too long to respond."))]⟩) := by
  refine ⟨⟨rfl, rfl, rfl, rfl, rfl⟩, fun m => ⟨rfl, rfl, rfl, rfl⟩, ?_⟩
  intro m fields v h hv
  simp [chat, h, hv, chatUpstream]

/-- Witness for C4 on the Chat branch, with a concrete valid message. -/
theorem timeout_yields_504_witness :
    (chat (.json (.obj [("message", .str "hi")])) (.timeout "slow")).result =
      .response ⟨504, .obj [("error",
        .str ("Request timeout: " ++ "slow" ++ ". RAG API is taking too long to respond."))]⟩ :=
  timeout_yields_504.2.2 "slow" [("message", .str "hi")] (.str "hi") rfl rfl

/-- Claim C7: a transport-level failure (anything other than a timeout or
an upstream HTTP-status error) yields status 500 with an error field on
every operation; IssueStreamingToken and ListAllAvatars additionally
return a traceback field, while ListInteractiveAvatars, ListVoices and
Chat return only the short error form. -/
theorem transport_failure_shapes (m : String) :
    get_streaming_token (.transportError m) =
      .response ⟨500, .obj [("error", .str m), ("traceback", .str (format_exc m))]⟩ ∧
    get_avatars (.transportError m) =
      .response ⟨500, .obj [("error", .str m), ("traceback", .str (format_exc m))]⟩ ∧
    get_interactive_avatars (.transportError m) =
      .response ⟨500, .obj [("error", .str m)]⟩ ∧
    get_voices (.transportError m) =
      .response ⟨500, .obj [("error", .str m)]⟩ ∧
    ∀ (fields : List (String × Json)) (v : Json),
      dictGet fields "message" = some v → v.truthy = true →
      (chat (.json (.obj fields)) (.transportError m)).result =
        .response ⟨500, .obj [("error", .str m)]⟩ := by
  refine ⟨rfl, rfl, rfl, rfl, ?_⟩
  intro fields v h hv
  simp [chat, h, hv, chatUpstream]

/-- Witness for C7 with a concrete failure message and valid Chat input. -/
theorem transport_failure_shapes_witness :
    get_avatars (.transportError "boom") =
      .response ⟨500, .obj [("error", .str "boom"),
                            ("traceback", .str (format_exc "boom"))]⟩ ∧
    (chat (.json (.obj [("message", .str "hi")])) (.transportError "boom")).result =
      .response ⟨500, .obj [("error", .str "boom")]⟩ :=
  ⟨(transport_failure_shapes "boom").2.1,
   (transport_failure_shapes "boom").2.2.2.2 [("message", .str "hi")] (.str "hi") rfl rfl⟩

/-- The raw text of the upstream body the spec uses in its example: the
JSON text for an object binding code to 42. -/
def code42Text : String := "\x7b\x22code\x22: 42\x7d"

/-- The JSON value that text parses to. -/
def code42Json : Json := .obj [("code", .num 42)]

/-- Claim C1, counterexample: ListAllAvatars on an upstream 400 whose body
is the JSON text for code 42 answers with the raw text wrapped in an error
field, not with the parsed JSON verbatim as the claim predicts. -/
theorem upstream_error_json_passthrough_cex :
    get_avatars (.ok ⟨400, code42Text, some code42Json⟩) =
      .response ⟨400, .obj [("error", .str code42Text)]⟩ ∧
    get_avatars (.ok ⟨400, code42Text, some code42Json⟩) ≠
      .response ⟨400, code42Json⟩ := by
  refine ⟨rfl, ?_⟩
  intro h
  rw [show get_avatars (.ok ⟨400, code42Text, some code42Json⟩) =
        .response ⟨400, .obj [("error", .str code42Text)]⟩ from rfl] at h
  simp [code42Json, code42Text] at h

/-- Claim C1, amended: only Chat parses a non-2xx upstream body as JSON
(and only when the body text is non-empty); the four avatar-provider
operations always echo the upstream status with the raw upstream text in a
wrapper — a plain error field for the three listing operations, the
error/status/details wrapper for IssueStreamingToken. -/
theorem upstream_error_body_shapes :
    (∀ resp : UpstreamResponse, is_success resp.status = false →
      get_avatars (.ok resp) = .response ⟨resp.status, .obj [("error", .str resp.text)]⟩ ∧
      get_interactive_avatars (.ok resp) =
        .response ⟨resp.status, .obj [("error", .str resp.text)]⟩ ∧
      get_voices (.ok resp) = .response ⟨resp.status, .obj [("error", .str resp.text)]⟩ ∧
      get_streaming_token (.ok resp) =
        .response ⟨resp.status,
          .obj [("error", .str resp.text), ("status", .num (resp.status : Int)),
                ("details", .str "Check backend logs")]⟩) ∧
    (∀ (resp : UpstreamResponse) (j : Json) (fields : List (String × Json)) (v : Json),
      dictGet fields "message" = some v → v.truthy = true →
      is_success resp.status = false → resp.text ≠ "" → resp.jsonBody = some j →
      (chat (.json (.obj fields)) (.ok resp)).result = .response ⟨resp.status, j⟩) := by
  constructor
  · intro resp hs
    have h200 : resp.status ≠ 200 := by
      intro e
      rw [e] at hs
      simp [is_success] at hs
    refine ⟨?_, ?_, ?_, ?_⟩ <;>
      simp [get_avatars, get_interactive_avatars, get_voices, get_streaming_token,
            heygen_get, hs, h200]
  · intro resp j fields v hmsg hv hs ht hj
    simp [chat, hmsg, hv, chatUpstream, hs, ht, hj]

/-- Witness for C1 (amended) at the upstream 400 with the code-42 JSON
body, on both an avatar-provider operation and Chat. -/
theorem upstream_error_body_shapes_witness :
    get_avatars (.ok ⟨400, code42Text, some code42Json⟩) =
      .response ⟨400, .obj [("error", .str code42Text)]⟩ ∧
    (chat (.json (.obj [("message", .str "hi")])) (.ok ⟨400, code42Text, some code42Json⟩)).result =
      .response ⟨400, code42Json⟩ :=
  ⟨(upstream_error_body_shapes.1 ⟨400, code42Text, some code42Json⟩ (by decide)).1,
   upstream_error_body_shapes.2 ⟨400, code42Text, some code42Json⟩ code42Json
     [("message", .str "hi")] (.str "hi") rfl rfl (by decide) (by decide) rfl⟩

/-- Claim C6, counterexample: IssueStreamingToken on a simulated upstream
success with status 201 and a JSON body does not pass the body through
with status 200; it answers 201 with the error wrapper. -/
theorem success_passthrough_cex :
    get_streaming_token (.ok ⟨201, "ok body", some (.obj [("ok", .bool true)])⟩) =
      .response ⟨201, .obj [("error", .str "ok body"), ("status", .num 201),
                            ("details", .str "Check backend logs")]⟩ ∧
    get_streaming_token (.ok ⟨201, "ok body", some (.obj [("ok", .bool true)])⟩) ≠
      .response ⟨200, .obj [("ok", .bool true)]⟩ := by
  refine ⟨rfl, ?_⟩
  intro h
  rw [show get_streaming_token (.ok ⟨201, "ok body", some (.obj [("ok", .bool true)])⟩) =
        .response ⟨201, .obj [("error", .str "ok body"), ("status", .num 201),
                              ("details", .str "Check backend logs")]⟩ from rfl] at h
  simp at h

/-- Claim C6, amended: on a simulated upstream success with a JSON body,
the three listing operations pass the body through verbatim with status
200 for any 2xx upstream status.  IssueStreamingToken passes the body
through only when the upstream status is exactly 200 and the body parses
to a JSON object — it never enters the success branch for any other
status, and on a 200 whose parsed body is not an object the debug print
of result.keys() raises, so the caller gets 500 with error and traceback
fields instead of the body. -/
theorem success_passthrough :
    (∀ (resp : UpstreamResponse) (j : Json),
      is_success resp.status = true → resp.jsonBody = some j →
      get_avatars (.ok resp) = .response ⟨200, j⟩ ∧
      get_interactive_avatars (.ok resp) = .response ⟨200, j⟩ ∧
      get_voices (.ok resp) = .response ⟨200, j⟩) ∧
    (∀ (resp : UpstreamResponse) (fields : List (String × Json)),
      resp.status = 200 → resp.jsonBody = some (.obj fields) →
      get_streaming_token (.ok resp) = .response ⟨200, .obj fields⟩) ∧
    (∀ (resp : UpstreamResponse) (j : Json), resp.status ≠ 200 →
      get_streaming_token (.ok resp) ≠ .response ⟨200, j⟩) ∧
    (∀ (resp : UpstreamResponse) (j : Json),
      resp.status = 200 → resp.jsonBody = some j → (∀ fields, j ≠ .obj fields) →
      get_streaming_token (.ok resp) =
        .response ⟨500, .obj [("error", .str keysAttributeErrorMsg),
                              ("traceback", .str (format_exc keysAttributeErrorMsg))]⟩) := by
  refine ⟨?_, ?_, ?_, ?_⟩
  · intro resp j hs hj
    refine ⟨?_, ?_, ?_⟩ <;>
      simp [get_avatars, get_interactive_avatars, get_voices, heygen_get, hs, hj]
  · intro resp fields h200 hj
    simp [get_streaming_token, h200, hj]
  · intro resp j h200 h
    rw [show get_streaming_token (.ok resp) =
          .response ⟨resp.status,
            .obj [("error", .str resp.text), ("status", .num (resp.status : Int)),
                  ("details", .str "Check backend logs")]⟩ by
        simp [get_streaming_token, h200]] at h
    exact h200 (congrArg (fun r => match r with
      | ProxyResult.response r => r.status
      | ProxyResult.unhandled _ => 0) h)
  · intro resp j h200 hj hno
    rcases j with _ | b | n | s | elems | fields
    · simp [get_streaming_token, h200, hj]
    · simp [get_streaming_token, h200, hj]
    · simp [get_streaming_token, h200, hj]
    · simp [get_streaming_token, h200, hj]
    · simp [get_streaming_token, h200, hj]
    · exact absurd rfl (hno fields)

/-- Witness for C6 (amended): a 200 upstream success with an object body
passes through on ListVoices and IssueStreamingToken, a 201 does not pass
through on IssueStreamingToken, and a 200 whose JSON body is an array
yields the 500 error response on IssueStreamingToken. -/
theorem success_passthrough_witness :
    get_voices (.ok ⟨200, "v", some (.obj [("voices", .arr [])])⟩) =
      .response ⟨200, .obj [("voices", .arr [])]⟩ ∧
    get_streaming_token (.ok ⟨200, "t", some (.obj [("token", .str "x")])⟩) =
      .response ⟨200, .obj [("token", .str "x")]⟩ ∧
    get_streaming_token (.ok ⟨201, "t", some (.obj [("token", .str "x")])⟩) ≠
      .response ⟨200, .obj [("token", .str "x")]⟩ ∧
    get_streaming_token (.ok ⟨200, "[]", some (.arr [])⟩) =
      .response ⟨500, .obj [("error", .str keysAttributeErrorMsg),
                            ("traceback", .str (format_exc keysAttributeErrorMsg))]⟩ :=
  ⟨(success_passthrough.1 ⟨200, "v", some (.obj [("voices", .arr [])])⟩
      (.obj [("voices", .arr [])]) (by decide) rfl).2.2,
   success_passthrough.2.1 ⟨200, "t", some (.obj [("token", .str "x")])⟩
     [("token", .str "x")] rfl rfl,
   success_passthrough.2.2.1 ⟨201, "t", some (.obj [("token", .str "x")])⟩
     (.obj [("token", .str "x")]) (by decide),
   success_passthrough.2.2.2 ⟨200, "[]", some (.arr [])⟩ (.arr []) rfl rfl
     (fun _ => by simp)⟩

/-- Claim C2, counterexample: Chat on an upstream 400 whose non-empty body
is not JSON lets the parse failure escape the handler as an unhandled
fault, and Chat on an upstream 400 whose body is the JSON object code 42
hands the caller that object, which has no error field. -/
theorem failure_containment_cex :
    (chat (.json (.obj [("message", .str "hi")]))
        (.ok ⟨400, "upstream blew up", none⟩)).result =
      .unhandled (jsonDecodeMsg "upstream blew up") ∧
    (chat (.json (.obj [("message", .str "hi")]))
        (.ok ⟨400, code42Text, some code42Json⟩)).result =
      .response ⟨400, code42Json⟩ ∧
    hasErrorField code42Json = false :=
  ⟨rfl, rfl, rfl⟩

/-- Containment of IssueStreamingToken: every outcome becomes a response,
and any response other than a 200 carries an error field. -/
theorem get_streaming_token_contained (outcome : OutboundOutcome) :
    ∃ r, get_streaming_token outcome = .response r ∧
      (r.status ≠ 200 → hasErrorField r.body = true) := by
  rcases outcome with resp | m | m
  · by_cases h200 : resp.status = 200
    · rcases hjb : resp.jsonBody with _ | j
      · exact ⟨⟨500, .obj [("error", .str (jsonDecodeMsg resp.text)),
            ("traceback", .str (format_exc (jsonDecodeMsg resp.text)))]⟩,
          by simp [get_streaming_token, h200, hjb], fun _ => by simp [hasErrorField]⟩
      · rcases j with _ | b | n | s | elems | fields
        · exact ⟨⟨500, .obj [("error", .str keysAttributeErrorMsg),
              ("traceback", .str (format_exc keysAttributeErrorMsg))]⟩,
            by simp [get_streaming_token, h200, hjb], fun _ => by simp [hasErrorField]⟩
        · exact ⟨⟨500, .obj [("error", .str keysAttributeErrorMsg),
              ("traceback", .str (format_exc keysAttributeErrorMsg))]⟩,
            by simp [get_streaming_token, h200, hjb], fun _ => by simp [hasErrorField]⟩
        · exact ⟨⟨500, .obj [("error", .str keysAttributeErrorMsg),
              ("traceback", .str (format_exc keysAttributeErrorMsg))]⟩,
            by simp [get_streaming_token, h200, hjb], fun _ => by simp [hasErrorField]⟩
        · exact ⟨⟨500, .obj [("error", .str keysAttributeErrorMsg),
              ("traceback", .str (format_exc keysAttributeErrorMsg))]⟩,
            by simp [get_streaming_token, h200, hjb], fun _ => by simp [hasErrorField]⟩
        · exact ⟨⟨500, .obj [("error", .str keysAttributeErrorMsg),
              ("traceback", .str (format_exc keysAttributeErrorMsg))]⟩,
            by simp [get_streaming_token, h200, hjb], fun _ => by simp [hasErrorField]⟩
        · exact ⟨⟨200, .obj fields⟩, by simp [get_streaming_token, h200, hjb],
            fun hc => absurd rfl hc⟩
    · exact ⟨⟨resp.status, .obj [("error", .str resp.text), ("status", .num (resp.status : Int)),
          ("details", .str "Check backend logs")]⟩,
        by simp [get_streaming_token, h200], fun _ => by simp [hasErrorField]⟩
  · exact ⟨⟨504, timeoutBody m⟩, rfl, fun _ => by simp [hasErrorField, timeoutBody]⟩
  · exact ⟨⟨500, .obj [("error", .str m), ("traceback", .str (format_exc m))]⟩, rfl,
      fun _ => by simp [hasErrorField]⟩

/-- Containment of ListAllAvatars, in the same sense. -/
theorem get_avatars_contained (outcome : OutboundOutcome) :
    ∃ r, get_avatars outcome = .response r ∧
      (r.status ≠ 200 → hasErrorField r.body = true) := by
  rcases outcome with resp | m | m
  · rcases hs : is_success resp.status
    · exact ⟨⟨resp.status, .obj [("error", .str resp.text)]⟩,
        by simp [get_avatars, heygen_get, hs], fun _ => by simp [hasErrorField]⟩
    · rcases hjb : resp.jsonBody with _ | j
      · exact ⟨⟨500, .obj [("error", .str (jsonDecodeMsg resp.text)),
            ("traceback", .str (format_exc (jsonDecodeMsg resp.text)))]⟩,
          by simp [get_avatars, heygen_get, hs, hjb], fun _ => by simp [hasErrorField]⟩
      · exact ⟨⟨200, j⟩, by simp [get_avatars, heygen_get, hs, hjb], fun hc => absurd rfl hc⟩
  · exact ⟨⟨504, timeoutBody m⟩, rfl, fun _ => by simp [hasErrorField, timeoutBody]⟩
  · exact ⟨⟨500, .obj [("error", .str m), ("traceback", .str (format_exc m))]⟩, rfl,
      fun _ => by simp [hasErrorField]⟩

/-- Containment of ListInteractiveAvatars, in the same sense. -/
theorem get_interactive_avatars_contained (outcome : OutboundOutcome) :
    ∃ r, get_interactive_avatars outcome = .response r ∧
      (r.status ≠ 200 → hasErrorField r.body = true) := by
  rcases outcome with resp | m | m
  · rcases hs : is_success resp.status
    · exact ⟨⟨resp.status, .obj [("error", .str resp.text)]⟩,
        by simp [get_interactive_avatars, heygen_get, hs], fun _ => by simp [hasErrorField]⟩
    · rcases hjb : resp.jsonBody with _ | j
      · exact ⟨⟨500, .obj [("error", .str (jsonDecodeMsg resp.text))]⟩,
          by simp [get_interactive_avatars, heygen_get, hs, hjb],
          fun _ => by simp [hasErrorField]⟩
      · exact ⟨⟨200, j⟩, by simp [get_interactive_avatars, heygen_get, hs, hjb],
          fun hc => absurd rfl hc⟩
  · exact ⟨⟨504, timeoutBody m⟩, rfl, fun _ => by simp [hasErrorField, timeoutBody]⟩
  · exact ⟨⟨500, .obj [("error", .str m)]⟩, rfl, fun _ => by simp [hasErrorField]⟩

/-- Containment of ListVoices, in the same sense. -/
theorem get_voices_contained (outcome : OutboundOutcome) :
    ∃ r, get_voices outcome = .response r ∧
      (r.status ≠ 200 → hasErrorField r.body = true) := by
  rcases outcome with resp | m | m
  · rcases hs : is_success resp.status
    · exact ⟨⟨resp.status, .obj [("error", .str resp.text)]⟩,
        by simp [get_voices, heygen_get, hs], fun _ => by simp [hasErrorField]⟩
    · rcases hjb : resp.jsonBody with _ | j
      · exact ⟨⟨500, .obj [("error", .str (jsonDecodeMsg resp.text))]⟩,
          by simp [get_voices, heygen_get, hs, hjb], fun _ => by simp [hasErrorField]⟩
      · exact ⟨⟨200, j⟩, by simp [get_voices, heygen_get, hs, hjb], fun hc => absurd rfl hc⟩
  · exact ⟨⟨504, timeoutBody m⟩, rfl, fun _ => by simp [hasErrorField, timeoutBody]⟩
  · exact ⟨⟨500, .obj [("error", .str m)]⟩, rfl, fun _ => by simp [hasErrorField]⟩

/-- Claim C2, amended: the four avatar-provider operations convert every
outcome to an HTTP response, and every response of theirs other than a 200
carries an error field.  Chat does the same except on an upstream HTTP
error with a non-empty body: there it returns the upstream body parsed as
JSON, which need not contain an error field, and when that body is not
parseable as JSON the failure escapes as an unhandled fault — the only
such case. -/
theorem failure_containment :
    (∀ outcome : OutboundOutcome,
      (∃ r, get_streaming_token outcome = .response r ∧
        (r.status ≠ 200 → hasErrorField r.body = true)) ∧
      (∃ r, get_avatars outcome = .response r ∧
        (r.status ≠ 200 → hasErrorField r.body = true)) ∧
      (∃ r, get_interactive_avatars outcome = .response r ∧
        (r.status ≠ 200 → hasErrorField r.body = true)) ∧
      (∃ r, get_voices outcome = .response r ∧
        (r.status ≠ 200 → hasErrorField r.body = true))) ∧
    (∀ (inbound : InboundBody) (outcome : OutboundOutcome) (u : String),
      (chat inbound outcome).result = .unhandled u →
      ∃ resp : UpstreamResponse, outcome = .ok resp ∧ is_success resp.status = false ∧
        resp.text ≠ "" ∧ resp.jsonBody = none) ∧
    (∀ (inbound : InboundBody) (outcome : OutboundOutcome) (r : HttpResponse),
      (chat inbound outcome).result = .response r → r.status ≠ 200 →
      hasErrorField r.body = true ∨
        ∃ (resp : UpstreamResponse) (j : Json),
          outcome = .ok resp ∧ resp.jsonBody = some j ∧ r.body = j) := by
  refine ⟨?_, ?_, ?_⟩
  · intro outcome
    exact ⟨get_streaming_token_contained outcome, get_avatars_contained outcome,
      get_interactive_avatars_contained outcome, get_voices_contained outcome⟩
  · intro inbound outcome u h
    rcases inbound with data | m
    · rcases data with _ | b | n | s | elems | fields
      · simp [chat] at h
      · simp [chat] at h
      · simp [chat] at h
      · simp [chat] at h
      · simp [chat] at h
      · rcases hget : dictGet fields "message" with _ | v
        · simp [chat, hget, messageRequired] at h
        · by_cases hv : v.truthy = true
          · rcases outcome with resp | tm | tm
            · rcases hs : is_success resp.status
              · by_cases htext : resp.text = ""
                · simp [chat, hget, hv, chatUpstream, hs, htext] at h
                · rcases hjb : resp.jsonBody with _ | j
                  · exact ⟨resp, rfl, hs, htext, hjb⟩
                  · simp [chat, hget, hv, chatUpstream, hs, htext, hjb] at h
              · rcases hjb : resp.jsonBody with _ | j <;>
                  simp [chat, hget, hv, chatUpstream, hs, hjb] at h
            · simp [chat, hget, hv, chatUpstream] at h
            · simp [chat, hget, hv, chatUpstream] at h
          · simp [chat, hget, hv, messageRequired] at h
    · simp [chat] at h
  · intro inbound outcome r h hr
    rcases inbound with data | m
    · rcases data with _ | b | n | s | elems | fields
      · left; simp [chat] at h; subst h; rfl
      · left; simp [chat] at h; subst h; rfl
      · left; simp [chat] at h; subst h; rfl
      · left; simp [chat] at h; subst h; rfl
      · left; simp [chat] at h; subst h; rfl
      · rcases hget : dictGet fields "message" with _ | v
        · left; simp [chat, hget, messageRequired] at h; subst h; rfl
        · by_cases hv : v.truthy = true
          · rcases outcome with resp | tm | tm
            · rcases hs : is_success resp.status
              · by_cases htext : resp.text = ""
                · left
                  simp [chat, hget, hv, chatUpstream, hs, htext] at h
                  subst h; rfl
                · rcases hjb : resp.jsonBody with _ | j
                  · simp [chat, hget, hv, chatUpstream, hs, htext, hjb] at h
                  · right
                    simp [chat, hget, hv, chatUpstream, hs, htext, hjb] at h
                    subst h
                    exact ⟨resp, j, rfl, hjb, rfl⟩
              · rcases hjb : resp.jsonBody with _ | j
                · left
                  simp [chat, hget, hv, chatUpstream, hs, hjb] at h
                  subst h; rfl
                · exfalso
                  simp [chat, hget, hv, chatUpstream, hs, hjb] at h
                  subst h
                  exact hr rfl
            · left
              simp [chat, hget, hv, chatUpstream] at h
              subst h; rfl
            · left
              simp [chat, hget, hv, chatUpstream] at h
              subst h; rfl
          · left; simp [chat, hget, hv, messageRequired] at h; subst h; rfl
    · left; simp [chat] at h; subst h; rfl

/-- Witness for C2 (amended): the unhandled-fault characterization applied
at a concrete Chat request meeting an upstream 400 with a non-empty
unparseable body, and the error-field property applied at a Chat request
whose own body is unparseable. -/
theorem failure_containment_witness :
    (∃ resp : UpstreamResponse, OutboundOutcome.ok ⟨400, "oops", none⟩ = .ok resp ∧
      is_success resp.status = false ∧ resp.text ≠ "" ∧ resp.jsonBody = none) ∧
    (hasErrorField (HttpResponse.mk 500 (.obj [("error", .str "boom")])).body = true ∨
      ∃ (resp : UpstreamResponse) (j : Json),
        OutboundOutcome.timeout "t" = .ok resp ∧ resp.jsonBody = some j ∧
        (HttpResponse.mk 500 (.obj [("error", .str "boom")])).body = j) :=
  ⟨failure_containment.2.1 (.json (.obj [("message", .str "hi")]))
      (.ok ⟨400, "oops", none⟩) (jsonDecodeMsg "oops") rfl,
   failure_containment.2.2 (.invalid "boom") (.timeout "t")
     ⟨500, .obj [("error", .str "boom")]⟩ rfl (by decide)⟩

end HeygenProxy
